import Mathlib

/-!
Verification development for the ISP customer-portal backend
(`backend/app`).  The definitions below are a shallow embedding of the
Python source: pure fragments become Lean functions, the database and
the external collaborators (router, ACS registry, HTTP probe targets,
billing platform, JWT signing) are passed in explicitly as values or
oracles, and fallible code returns `Except`/`Option`.
-/

namespace IspPortal

/-! ## Session / identity layer (`app/api/auth.py`)

The JWT mechanics (`jwt.encode` / `jwt.decode` from PyJWT) are an
external collaborator.  They are modelled by an idealized signing
scheme: an encoded token is either a signed container carrying its
claims, signing key and algorithm, or a malformed blob.  `jwtDecode`
mirrors the PyJWT contract used by the source: a wrong key or
algorithm (and any malformed token) raises `InvalidTokenError`, a
correctly signed token whose `exp` claim has passed raises
`ExpiredSignatureError` (signature is checked before expiry), and
otherwise the full claims set is returned. -/

/-- The claim fields the application puts into a token
(`login` adds `uisp_token`; `refresh_token` omits it). -/
structure TokenData where
  customer_id : Nat
  uisp_customer_id : String
  email : String
  uisp_token : Option String
deriving DecidableEq, Repr

/-- A full JWT claims set: application data plus the `exp` claim
(seconds since epoch) added by `create_access_token`. -/
structure Claims where
  data : TokenData
  exp : Nat
deriving DecidableEq, Repr

/-- An encoded token, as produced by the external JWT library. -/
inductive Jwt where
  | signed (claims : Claims) (key : String) (alg : String)
  | malformed (raw : String)
deriving DecidableEq, Repr

/-- `settings.JWT_ALGORITHM` (`app/core/config.py`). -/
def JWT_ALGORITHM : String := "HS256"

/-- `settings.JWT_EXPIRATION_HOURS` (`app/core/config.py`). -/
def JWT_EXPIRATION_HOURS : Nat := 24

/-- `create_access_token` (`auth.py`): copy the data, add an `exp`
claim `JWT_EXPIRATION_HOURS` from now, and sign with the process-wide
secret key and algorithm. -/
def create_access_token (data : TokenData) (key : String) (now : Nat) : Jwt :=
  Jwt.signed { data := data, exp := now + JWT_EXPIRATION_HOURS * 3600 } key JWT_ALGORITHM

/-- The two failure modes of the external `jwt.decode`. -/
inductive JwtError where
  | expired
  | invalid
deriving DecidableEq, Repr

/-- Model of `jwt.decode(token, key, algorithms=[alg])`:
signature/shape problems raise `invalid`, a correctly signed token is
then checked against the clock and raises `expired` when `exp` has
passed, else the claims are returned. -/
def jwtDecode (tok : Jwt) (key : String) (alg : String) (now : Nat) :
    Except JwtError Claims :=
  match tok with
  | Jwt.malformed _ => Except.error JwtError.invalid
  | Jwt.signed c k a =>
    if k = key ∧ a = alg then
      if c.exp ≤ now then Except.error JwtError.expired else Except.ok c
    else Except.error JwtError.invalid

/-- The `TokenPayload` pydantic model (`auth.py`): note that it has no
`uisp_token` field, and pydantic silently drops unknown keys when the
decoded payload dict is splatted into it. -/
structure TokenPayload where
  customer_id : Nat
  uisp_customer_id : String
  email : String
  exp : Nat
deriving DecidableEq, Repr

/-- Projection performed by `TokenPayload(**payload)`: keep the fields
declared on the model, discard the rest (in particular `uisp_token`). -/
def toTokenPayload (c : Claims) : TokenPayload :=
  { customer_id := c.data.customer_id
    uisp_customer_id := c.data.uisp_customer_id
    email := c.data.email
    exp := c.exp }

/-- Outcome of a protected route's token dependency, as seen by the
HTTP client. -/
inductive AuthOutcome where
  | ok (payload : TokenPayload)
  | unauthorized (detail : String)
  | missingHeader
deriving DecidableEq, Repr

/-- The body of `verify_token` (`auth.py`) after the header value has
been reduced to a token: decode, wrap the claims in `TokenPayload`,
and turn the two decode failures into distinct 401 responses. -/
def verify_token (tok : Jwt) (key : String) (now : Nat) : AuthOutcome :=
  match jwtDecode tok key JWT_ALGORITHM now with
  | Except.ok c => AuthOutcome.ok (toTokenPayload c)
  | Except.error JwtError.expired => AuthOutcome.unauthorized "Token has expired"
  | Except.error JwtError.invalid => AuthOutcome.unauthorized "Invalid token"

/-- A protected route as wired by FastAPI.  `verify_token` declares
`authorization: str = Header(...)`, i.e. a required header: when the
header is absent the framework rejects the request with a request
validation error (HTTP 422) before `verify_token` runs; `missingHeader`
is that framework response. -/
def protectedRequest (authorization : Option Jwt) (key : String) (now : Nat) :
    AuthOutcome :=
  match authorization with
  | none => AuthOutcome.missingHeader
  | some tok => verify_token tok key now

/-- Whether an outcome is a 401 unauthorized response. -/
def isUnauthorized : AuthOutcome → Bool
  | AuthOutcome.unauthorized _ => true
  | _ => false

/-! ### Bearer-scheme stripping

The first line of `verify_token` is
`token = authorization.replace("Bearer ", "")`.  Python's
`str.replace` removes every non-overlapping occurrence of the pattern,
scanning left to right, wherever it occurs in the string.  This is
modelled character-level. -/

/-- The character sequence of the pattern string `"Bearer "`. -/
def bearerPat : List Char := ['B', 'e', 'a', 'r', 'e', 'r', ' ']

/-- Python `s.replace("Bearer ", "")` on the character list of `s`:
whenever the pattern starts at the current position it is dropped and
scanning resumes after it, otherwise the current character is kept. -/
def stripBearerChars : List Char → List Char
  | [] => []
  | c :: rest =>
    if bearerPat.isPrefixOf (c :: rest) then stripBearerChars (rest.drop 6)
    else c :: stripBearerChars rest
termination_by l => l.length
decreasing_by
  · simp only [List.length_cons, List.length_drop]
    omega
  · simp only [List.length_cons]
    omega

/-- The header-value preprocessing of `verify_token`. -/
def stripAuth (a : String) : String := String.mk (stripBearerChars a.data)

/-- `verify_token` as it acts on the raw header string: strip the
bearer pattern, then hand the remaining string to the JWT decoder
(abstracted here, since the wire format is external). -/
def verify_token_header (decode : String → AuthOutcome) (authorization : String) :
    AuthOutcome :=
  decode (stripAuth authorization)

/-! ## Login flow (`auth.py:login`) and the `Customer` table
(`app/core/database.py`)

The database session is modelled as the list of `customers` rows in
insertion order plus the next value of the integer primary-key
sequence.  The UISP round trips (`uisp_service.authenticate` and the
follow-up customer/service fetches) are external; the login handler
only consumes the fields extracted from their JSON payloads, which are
passed in as an `UispAuthResult`. -/

/-- One row of the `customers` table. -/
structure Customer where
  id : Nat
  uisp_customer_id : String
  email : String
  name : String
  phone : String
deriving DecidableEq, Repr

/-- The database state visible to `login`. -/
structure Db where
  rows : List Customer
  nextId : Nat
deriving Repr

/-- Fields of a successful `uisp_service.authenticate` response that
`login` consumes: the UISP session token, `str(customer["id"])`, the
user email (defaulted to the username), and the customer name parts
and phone used when a new row is created. -/
structure UispAuthResult where
  token : String
  customerId : String
  email : String
  firstName : String
  lastName : String
  phone : String
deriving DecidableEq, Repr

/-- `login` (`auth.py`), after UISP authentication succeeded: select
the `Customer` row by `uisp_customer_id`; insert a fresh row when none
exists (name is `f"{first} {last}".strip()`); mint a JWT embedding the
row id, the external id, the email and the UISP session token.
Returns the resulting database, the row id and the token. -/
def login (db : Db) (a : UispAuthResult) (key : String) (now : Nat) :
    Db × Nat × Jwt :=
  match db.rows.find? (fun c => c.uisp_customer_id == a.customerId) with
  | some c =>
    (db, c.id, create_access_token ⟨c.id, a.customerId, a.email, some a.token⟩ key now)
  | none =>
    (⟨db.rows ++ [⟨db.nextId, a.customerId, a.email,
        (a.firstName ++ " " ++ a.lastName).trim, a.phone⟩], db.nextId + 1⟩,
      db.nextId,
      create_access_token ⟨db.nextId, a.customerId, a.email, some a.token⟩ key now)

/-! ## Device probe (`app/api/devices.py`)

`check_port` already swallows its own exceptions and returns a
boolean, so the reachable-port map of the surrounding network is an
oracle `portOpen`.  The two outbound HTTP probes (GenieACS registry
lookup, HTTP fingerprint fetch) can fail with a network error, which
the source catches inside the respective detector; their outcomes are
`Except Unit` values. -/

/-- The response of the plain HTTP fetch used for fingerprinting:
body text and the `Server` header (absent header = `""`). -/
structure HttpResp where
  content : String
  server : String
deriving DecidableEq, Repr

/-- A device record returned by the GenieACS registry, reduced to the
fields the probe reads (`_id`, `_deviceId._Manufacturer`,
`_deviceId._ProductClass`). -/
structure AcsDevice where
  idTag : Option String
  manufacturer : Option String
  productClass : Option String
deriving DecidableEq, Repr

/-- The network environment a probe request runs against. -/
structure Network where
  portOpen : String → Nat → Bool
  acs : Except Unit (Nat × List AcsDevice)
  http : Except Unit HttpResp

/-- The `DeviceInfo` response model. -/
structure DeviceInfo where
  device_type : String
  manufacturer : Option String
  model : Option String
  device_id : Option String
  ip_address : Option String
  capabilities : List String
deriving DecidableEq, Repr

/-- Contiguous-sublist test on character lists. -/
def charsInfix (pat : List Char) : List Char → Bool
  | [] => pat.isEmpty
  | c :: rest => pat.isPrefixOf (c :: rest) || charsInfix pat rest

/-- Substring test (Python `pat in s`). -/
def strContains (s pat : String) : Bool := charsInfix pat.data s.data

/-- `detect_starlink`: only the fixed gateway address 192.168.100.1
qualifies, and only when the gRPC management port 9200 is open. -/
def detect_starlink (net : Network) (ip : String) : Option DeviceInfo :=
  if ip ≠ "192.168.100.1" then none
  else if net.portOpen ip 9200 then
    some { device_type := "starlink", manufacturer := some "SpaceX"
           model := some "Starlink Dish", device_id := none
           ip_address := some ip
           capabilities := ["wifi_config", "status", "reboot", "stow"] }
  else none

/-- `detect_mikrotik`: RouterOS API port 8728 or WinBox port 8291 open
classifies the device; the web port 80 additionally enables the
hotspot capabilities. -/
def detect_mikrotik (net : Network) (ip : String) : Option DeviceInfo :=
  let api_port_open := net.portOpen ip 8728
  let winbox_port_open := net.portOpen ip 8291
  if api_port_open || winbox_port_open then
    let capabilities := ["wifi_config", "status", "reboot"] ++
      (if net.portOpen ip 80 then
        ["hotspot_users", "hotspot_vouchers", "hotspot_profiles"]
      else [])
    some { device_type := "mikrotik", manufacturer := some "MikroTik"
           model := none, device_id := none, ip_address := some ip
           capabilities := capabilities }
  else none

/-- `detect_tr069_device`: query the GenieACS registry by last-known
WAN address; any network error is caught and counts as no match, a
non-200 status or an empty result list is no match, otherwise the
first returned device is reported. -/
def detect_tr069_device (net : Network) (ip : String) : Option DeviceInfo :=
  match net.acs with
  | Except.error _ => none
  | Except.ok (status, devices) =>
    if status = 200 then
      match devices with
      | [] => none
      | d :: _ =>
        some { device_type := "tr069"
               manufacturer := some (d.manufacturer.getD "Unknown")
               model := some (d.productClass.getD "Unknown")
               device_id := d.idTag, ip_address := some ip
               capabilities := ["wifi_config", "status", "reboot", "firmware_update"] }
    else none

/-- `detect_by_http_fingerprint`: fetch `http://ip/`, lower-case the
body and the `Server` header, and match the static vendor signature
table in order; any error is caught and counts as no match. -/
def detect_by_http_fingerprint (net : Network) (ip : String) : Option DeviceInfo :=
  match net.http with
  | Except.error _ => none
  | Except.ok r =>
    let content := r.content.toLower
    let server := r.server.toLower
    if strContains content "tp-link" || strContains server "tp-link" then
      some { device_type := "tr069", manufacturer := some "TP-Link"
             model := none, device_id := none, ip_address := some ip
             capabilities := ["wifi_config", "status", "reboot"] }
    else if strContains content "d-link" || strContains server "d-link" then
      some { device_type := "tr069", manufacturer := some "D-Link"
             model := none, device_id := none, ip_address := some ip
             capabilities := ["wifi_config", "status", "reboot"] }
    else if strContains content "asus" || strContains content "asuswrt" then
      some { device_type := "asus", manufacturer := some "ASUS"
             model := none, device_id := none, ip_address := some ip
             capabilities := ["wifi_config", "status"] }
    else if strContains content "ubnt" || strContains content "ubiquiti" ||
        strContains content "unifi" then
      some { device_type := "ubiquiti", manufacturer := some "Ubiquiti"
             model := none, device_id := none, ip_address := some ip
             capabilities := ["status"] }
    else none

/-- `detect_device`: the four checks run concurrently with
`return_exceptions=True` and the gathered results keep the listed
order, so the aggregation takes the first check that produced a
`DeviceInfo` (exceptions and `None` results are skipped) and falls
back to the `unknown` classification with no capabilities. -/
def detect_device (net : Network) (ip : String) : DeviceInfo :=
  match detect_starlink net ip with
  | some d => d
  | none =>
    match detect_mikrotik net ip with
    | some d => d
    | none =>
      match detect_tr069_device net ip with
      | some d => d
      | none =>
        match detect_by_http_fingerprint net ip with
        | some d => d
        | none =>
          { device_type := "unknown", manufacturer := none, model := none
            device_id := none, ip_address := some ip, capabilities := [] }

/-! ## Voucher issuer (`app/api/mikrotik.py:generate_vouchers`,
`app/api/hotspot.py:generate_quick_vouchers`)

The random source `random.choices(...)` is modelled as a stream
`draws : Nat → String` giving the i-th drawn suffix, and the router's
`/ip/hotspot/user` `add` call as an oracle `accepts : String → Bool`
saying whether the router accepts the registration of a given code
(a `false` is the RouterOS trap exception the source does not catch).
The loop appends one voucher record per registered code; an uncaught
exception aborts it, discarding the records accumulated so far. -/

/-- The `VoucherRequest` model.  The third field is named `prefix` in
the source. -/
structure VoucherRequest where
  count : Nat
  profile : String
  pfx : String
  validity : String
  code_length : Nat
deriving DecidableEq, Repr

/-- One element of the list `generate_vouchers` returns. -/
structure Voucher where
  code : String
  profile : String
  validity : String
deriving DecidableEq, Repr

/-- The exception raised when the router rejects `users.add` for a
code; it carries no record of previously registered codes. -/
inductive RouterError where
  | addRejected (code : String)
deriving DecidableEq, Repr

/-- The code built in iteration `i`: request prefix followed by the
i-th random draw. -/
def voucherCode (req : VoucherRequest) (draws : Nat → String) (i : Nat) : String :=
  req.pfx ++ draws i

/-- The `for i in range(request.count)` loop body of
`generate_vouchers`: register the code, append the record; an add
failure raises, losing `acc`. -/
def genLoop (accepts : String → Bool) (req : VoucherRequest) (draws : Nat → String) :
    Nat → Nat → List Voucher → Except RouterError (List Voucher)
  | _, 0, acc => Except.ok acc
  | i, fuel + 1, acc =>
    let code := voucherCode req draws i
    if accepts code then
      genLoop accepts req draws (i + 1) fuel
        (acc ++ [⟨code, req.profile, req.validity⟩])
    else Except.error (RouterError.addRejected code)

/-- `MikroTikService.generate_vouchers` against a reachable router. -/
def generate_vouchers (accepts : String → Bool) (req : VoucherRequest)
    (draws : Nat → String) : Except RouterError (List Voucher) :=
  genLoop accepts req draws 0 req.count []

/-- What the HTTP client sees when a route fails. -/
inductive HttpFailure where
  | internalServerError
  | badRequest (detail : String)
deriving DecidableEq, Repr

/-- The voucher route outcome: a RouterOS trap escaping
`generate_vouchers` is an unhandled exception, which the global
exception handler in `app/main.py` converts into a generic HTTP 500
`Internal server error` response carrying no voucher data. -/
def generate_vouchers_endpoint (accepts : String → Bool) (req : VoucherRequest)
    (draws : Nat → String) : Except HttpFailure (List Voucher) :=
  match generate_vouchers accepts req draws with
  | Except.ok vs => Except.ok vs
  | Except.error _ => Except.error HttpFailure.internalServerError

/-- A preset row of `VOUCHER_PRESETS` (`hotspot.py`). -/
structure VoucherPreset where
  profile : String
  validity : String
  rate : String
deriving DecidableEq, Repr

/-- The fixed preset table of `hotspot.py`. -/
def VOUCHER_PRESETS : List (String × VoucherPreset) :=
  [("1hour", ⟨"1hour", "1h", "5M/5M"⟩),
   ("1day", ⟨"1day", "1d", "10M/10M"⟩),
   ("1week", ⟨"1week", "7d", "10M/10M"⟩),
   ("1month", ⟨"1month", "30d", "20M/20M"⟩)]

/-- Python `request.preset.upper()[:2]`: upper-case character by
character (the preset names are ASCII) and keep the first two
characters. -/
def upperTake2 (s : String) : String := String.mk ((s.data.map Char.toUpper).take 2)

/-- `generate_quick_vouchers` (`hotspot.py`): reject an unknown preset
name with HTTP 400, otherwise build a `VoucherRequest` carrying the
preset's profile and validity (code prefix = first two characters of
the upper-cased preset name, default code length 8) and run
`generate_vouchers`. -/
def generate_quick_vouchers (accepts : String → Bool) (presetName : String)
    (count : Nat) (draws : Nat → String) : Except HttpFailure (List Voucher) :=
  match VOUCHER_PRESETS.lookup presetName with
  | none => Except.error (HttpFailure.badRequest "Invalid preset")
  | some p =>
    let req : VoucherRequest := ⟨count, p.profile, upperTake2 presetName, p.validity, 8⟩
    match generate_vouchers accepts req draws with
    | Except.ok vs => Except.ok vs
    | Except.error _ => Except.error HttpFailure.internalServerError

/-- Reference list used to reason about the loop: the records produced
by iterations `i, i+1, ..., i+fuel-1` when every registration is
accepted. -/
def vouchersFrom (req : VoucherRequest) (draws : Nat → String) :
    Nat → Nat → List Voucher
  | _, 0 => []
  | i, fuel + 1 =>
    ⟨voucherCode req draws i, req.profile, req.validity⟩ ::
      vouchersFrom req draws (i + 1) fuel

/-! ## TR-069 parameter reads
(`app/api/tr069.py:TR069Service.get_device_parameters`)

Each requested dotted path is fetched with one GenieACS call; the call
can raise (caught and skipped), or return falsy data (skipped by
`if data:`), or return truthy data, which is stored in the result dict
under `param.split('.')[-1]`. -/

/-- Outcome of one parameter read. -/
inductive FetchResult where
  | exn
  | okFalsy
  | okData (v : String)
deriving DecidableEq, Repr

/-- Python `param.split('.')[-1]`, i.e. the suffix of the path after
its last dot (the whole string when it contains no dot). -/
def lastSegment (p : String) : String :=
  String.mk (p.data.foldl (fun acc c => if c = '.' then [] else acc ++ [c]) [])

/-- Python dict assignment `m[k] = v`: overwrite in place when the key
exists, append otherwise. -/
def dictInsert (m : List (String × String)) (k v : String) :
    List (String × String) :=
  match m with
  | [] => [(k, v)]
  | (k0, v0) :: rest =>
    if k0 = k then (k0, v) :: rest else (k0, v0) :: dictInsert rest k v

/-- Python dict lookup `m.get(k)`. -/
def dictGet (m : List (String × String)) (k : String) : Option String :=
  match m with
  | [] => none
  | (k0, v0) :: rest => if k0 = k then some v0 else dictGet rest k

/-- One iteration of the `for param in parameters` loop. -/
def gdpStep (fetch : String → FetchResult) (result : List (String × String))
    (p : String) : List (String × String) :=
  match fetch p with
  | FetchResult.okData v => dictInsert result (lastSegment p) v
  | _ => result

/-- `TR069Service.get_device_parameters` for a fixed device, with the
per-path GenieACS read abstracted as `fetch`. -/
def get_device_parameters (fetch : String → FetchResult) (params : List String) :
    List (String × String) :=
  params.foldl (gdpStep fetch) []

/-- Reference definition, following the claim's words: the value the
map should hold for a segment is the data of the last requested path
with that final segment whose read succeeded with truthy data. -/
def lastSuccessfulRead (fetch : String → FetchResult) (seg : String) :
    List String → Option String
  | [] => none
  | p :: rest =>
    match lastSuccessfulRead fetch seg rest with
    | some v => some v
    | none =>
      match fetch p with
      | FetchResult.okData v => if lastSegment p = seg then some v else none
      | _ => none

/-- Number of reads that succeed with truthy data. -/
def countOkReads (fetch : String → FetchResult) (params : List String) : Nat :=
  (params.filter (fun p =>
    match fetch p with
    | FetchResult.okData _ => true
    | _ => false)).length

/-! ## Theorems -/

/-- Helper: a token minted by `create_access_token` and verified with
the same key before its expiry yields the `TokenPayload` projection of
its claims. -/
theorem verify_create_access_token (d : TokenData) (key : String) (now now2 : Nat)
    (h : now2 < now + JWT_EXPIRATION_HOURS * 3600) :
    verify_token (create_access_token d key now) key now2 =
      AuthOutcome.ok ⟨d.customer_id, d.uisp_customer_id, d.email,
        now + JWT_EXPIRATION_HOURS * 3600⟩ := by
  unfold verify_token create_access_token jwtDecode toTokenPayload
  simp [Nat.not_le.mpr h]

/-- Helper: stripping the bearer pattern leaves a string with no
occurrence of the pattern unchanged. -/
theorem stripBearerChars_of_no_occurrence (l : List Char)
    (h : charsInfix bearerPat l = false) : stripBearerChars l = l := by
  induction l with
  | nil => simp [stripBearerChars]
  | cons c rest ih =>
    rw [charsInfix] at h
    rcases Bool.or_eq_false_iff.mp h with ⟨h1, h2⟩
    rw [stripBearerChars, if_neg (by simp [h1]), ih h2]

/-- Helper: a leading occurrence of the bearer pattern is consumed and
scanning continues on the remainder. -/
theorem stripBearerChars_bearer_append (l : List Char) :
    stripBearerChars (bearerPat ++ l) = stripBearerChars l := by
  have hpre : bearerPat.isPrefixOf ('B' :: (['e', 'a', 'r', 'e', 'r', ' '] ++ l)) = true := by
    simp [bearerPat, List.isPrefixOf]
  show stripBearerChars (('B' :: ['e', 'a', 'r', 'e', 'r', ' ']) ++ l) = _
  rw [List.cons_append, stripBearerChars, if_pos hpre]
  rfl

/-- Helper: string-level version of the leading-occurrence lemma. -/
theorem stripAuth_bearer_append (s : String) :
    stripAuth ("Bearer " ++ s) = stripAuth s := by
  unfold stripAuth
  have hdata : ("Bearer " ++ s).data = bearerPat ++ s.data := String.data_append "Bearer " s
  rw [hdata, stripBearerChars_bearer_append]

/-- C9: for a header value `t` containing no occurrence of the
substring Bearer-space, `verify_token` behaves identically on the bare
value `t` and on the standard value with the scheme prepended; the
scheme is not required, and a leading occurrence anywhere in the
header value is stripped before the string reaches the decoder. -/
theorem verify_token_bearer_agnostic (decode : String → AuthOutcome) (t : String)
    (h : strContains t "Bearer " = false) :
    verify_token_header decode ("Bearer " ++ t) = verify_token_header decode t ∧
    stripAuth t = t ∧
    (∀ s : String, stripAuth ("Bearer " ++ s) = stripAuth s) := by
  have ht : stripAuth t = t := by
    unfold stripAuth
    rw [stripBearerChars_of_no_occurrence t.data h]
  refine ⟨?_, ht, fun s => stripAuth_bearer_append s⟩
  unfold verify_token_header
  rw [stripAuth_bearer_append, ht]

/-- C9 witness: with an observing decoder, the bare token string
yields the same outcome as the Bearer-prefixed header. -/
theorem verify_token_bearer_agnostic_witness :
    verify_token_header (fun s => AuthOutcome.unauthorized s) ("Bearer " ++ "abc.def.sig") =
      verify_token_header (fun s => AuthOutcome.unauthorized s) "abc.def.sig" :=
  (verify_token_bearer_agnostic (fun s => AuthOutcome.unauthorized s) "abc.def.sig" rfl).1

/-- C2 counterexample: a protected-route request with no Authorization
header is rejected by the framework's required-header validation
(HTTP 422), not with an unauthorized response, so the three failure
modes are not three unauthorized responses. -/
theorem token_failure_modes_counterexample :
    protectedRequest none "secret" 1000 = AuthOutcome.missingHeader ∧
    isUnauthorized (protectedRequest none "secret" 1000) = false :=
  ⟨rfl, rfl⟩

/-- C2 amended: expired and malformed or wrongly-signed tokens yield
unauthorized responses with distinct messages, a correctly signed
token is never reported invalid (in particular an expired one is
reported expired), while a missing Authorization header is rejected by
request validation rather than with an unauthorized response. -/
theorem token_failure_modes_amended (key k2 alg2 raw : String) (c : Claims) (now : Nat) :
    protectedRequest none key now = AuthOutcome.missingHeader ∧
    (c.exp ≤ now →
      verify_token (Jwt.signed c key JWT_ALGORITHM) key now =
        AuthOutcome.unauthorized "Token has expired") ∧
    (k2 ≠ key →
      verify_token (Jwt.signed c k2 alg2) key now =
        AuthOutcome.unauthorized "Invalid token") ∧
    verify_token (Jwt.malformed raw) key now = AuthOutcome.unauthorized "Invalid token" ∧
    verify_token (Jwt.signed c key JWT_ALGORITHM) key now ≠
      AuthOutcome.unauthorized "Invalid token" ∧
    ("Token has expired" : String) ≠ "Invalid token" := by
  refine ⟨rfl, ?_, ?_, rfl, ?_, by decide⟩
  · intro h
    unfold verify_token jwtDecode
    simp [h]
  · intro h
    unfold verify_token jwtDecode
    have hcond : ¬(k2 = key ∧ alg2 = JWT_ALGORITHM) := fun hc => h hc.1
    simp [hcond]
  · unfold verify_token jwtDecode
    by_cases h : c.exp ≤ now
    · simp only [and_self, if_true, h]
      intro hEq
      have : ("Token has expired" : String) = "Invalid token" :=
        AuthOutcome.unauthorized.inj hEq
      exact absurd this (by decide)
    · simp [h]

/-- C2 amended witness: a correctly signed token whose expiry has
passed is rejected as expired. -/
theorem token_failure_modes_amended_witness :
    verify_token (Jwt.signed ⟨⟨1, "u", "e", none⟩, 5⟩ "k" JWT_ALGORITHM) "k" 10 =
      AuthOutcome.unauthorized "Token has expired" :=
  (token_failure_modes_amended "k" "x" "HS256" "r" ⟨⟨1, "u", "e", none⟩, 5⟩ 10).2.1
    (by decide)

/-- C3 counterexample: two distinct payloads, differing only in the
embedded `uisp_token`, mint tokens that verify to the same
`TokenPayload`, so verification does not decode back to exactly the
payload the token was created from. -/
theorem token_roundtrip_counterexample :
    (⟨7, "42", "a@example.com", some "UISPTOK"⟩ : TokenData) ≠
      (⟨7, "42", "a@example.com", none⟩ : TokenData) ∧
    verify_token (create_access_token ⟨7, "42", "a@example.com", some "UISPTOK"⟩ "k" 0) "k" 10 =
      verify_token (create_access_token ⟨7, "42", "a@example.com", none⟩ "k" 0) "k" 10 :=
  ⟨by decide, rfl⟩

/-- C3 amended: verifying a minted token with the same key before its
expiry returns exactly the `customer_id`, `uisp_customer_id` and
`email` it was created from together with the computed expiry, but the
`uisp_token` embedded by login is discarded by the `TokenPayload`
projection and is not returned. -/
theorem token_roundtrip_amended (d : TokenData) (key : String) (now now2 : Nat)
    (h : now2 < now + JWT_EXPIRATION_HOURS * 3600) :
    verify_token (create_access_token d key now) key now2 =
      AuthOutcome.ok ⟨d.customer_id, d.uisp_customer_id, d.email,
        now + JWT_EXPIRATION_HOURS * 3600⟩ :=
  verify_create_access_token d key now now2 h

/-- C3 amended witness: concrete round trip of the retained fields. -/
theorem token_roundtrip_amended_witness :
    verify_token (create_access_token ⟨1, "9", "e@x", some "T"⟩ "secret" 100) "secret" 50000 =
      AuthOutcome.ok ⟨1, "9", "e@x", 100 + JWT_EXPIRATION_HOURS * 3600⟩ :=
  token_roundtrip_amended ⟨1, "9", "e@x", some "T"⟩ "secret" 100 50000 (by decide)

/-- Helper: when the router accepts every registration, the voucher
loop returns the accumulator followed by one record per remaining
iteration. -/
theorem genLoop_all_accepted (accepts : String → Bool) (req : VoucherRequest)
    (draws : Nat → String) (hacc : ∀ c, accepts c = true) :
    ∀ fuel i acc, genLoop accepts req draws i fuel acc =
      Except.ok (acc ++ vouchersFrom req draws i fuel) := by
  intro fuel
  induction fuel with
  | zero => intro i acc; simp [genLoop, vouchersFrom]
  | succ f ih =>
    intro i acc
    rw [genLoop]
    simp only [hacc, if_true, ih, vouchersFrom]
    rw [List.append_assoc, List.singleton_append]

/-- Helper: the loop produces one record per iteration. -/
theorem vouchersFrom_length (req : VoucherRequest) (draws : Nat → String) :
    ∀ fuel i, (vouchersFrom req draws i fuel).length = fuel := by
  intro fuel
  induction fuel with
  | zero => intro i; rfl
  | succ f ih => intro i; simp [vouchersFrom, ih]

/-- Helper: membership in the produced batch. -/
theorem vouchersFrom_mem (req : VoucherRequest) (draws : Nat → String) :
    ∀ fuel i v, v ∈ vouchersFrom req draws i fuel ↔
      ∃ k, k < fuel ∧ v = ⟨voucherCode req draws (i + k), req.profile, req.validity⟩ := by
  intro fuel
  induction fuel with
  | zero => intro i v; simp [vouchersFrom]
  | succ f ih =>
    intro i v
    simp only [vouchersFrom, List.mem_cons, ih]
    constructor
    · rintro (h | ⟨k, hk, hv⟩)
      · exact ⟨0, Nat.succ_pos f, by simpa using h⟩
      · refine ⟨k + 1, by omega, ?_⟩
        rw [hv]
        have harith : i + (k + 1) = i + 1 + k := by omega
        rw [harith]
    · rintro ⟨k, hk, hv⟩
      match k with
      | 0 => exact Or.inl (by simpa using hv)
      | k + 1 =>
        refine Or.inr ⟨k, by omega, ?_⟩
        rw [hv]
        have harith : i + (k + 1) = i + 1 + k := by omega
        rw [harith]

/-- Helper: string concatenation is left-cancellative. -/
theorem string_append_left_cancel {s a b : String} (h : s ++ a = s ++ b) : a = b := by
  have hd : s.data ++ a.data = s.data ++ b.data := by
    rw [← String.data_append, ← String.data_append, h]
  exact String.ext (List.append_cancel_left hd)

/-- Helper: batch codes are distinct when the window of random draws
feeding them is injective. -/
theorem vouchersFrom_codes_nodup (req : VoucherRequest) (draws : Nat → String) :
    ∀ fuel i,
      (∀ a b, i ≤ a → a < i + fuel → i ≤ b → b < i + fuel → draws a = draws b → a = b) →
      ((vouchersFrom req draws i fuel).map Voucher.code).Nodup := by
  intro fuel
  induction fuel with
  | zero => intro i _; simp [vouchersFrom]
  | succ f ih =>
    intro i hinj
    simp only [vouchersFrom, List.map_cons]
    refine List.Nodup.cons ?_ (ih (i + 1) ?_)
    · intro hmem
      rcases List.mem_map.mp hmem with ⟨v, hv, hcode⟩
      rcases (vouchersFrom_mem req draws f (i + 1) v).mp hv with ⟨k, hk, rfl⟩
      have hdraw : draws (i + 1 + k) = draws i :=
        string_append_left_cancel hcode
      have : i + 1 + k = i := hinj (i + 1 + k) i (by omega) (by omega) (by omega) (by omega) hdraw
      omega
    · intro a b ha1 ha2 hb1 hb2 hab
      exact hinj a b (by omega) (by omega) (by omega) (by omega) hab

/-- C1 counterexample: a batch of two vouchers whose random draws
coincide is returned with two identical codes, so distinctness of the
codes inside one returned batch is not guaranteed by the code. -/
theorem voucher_batch_distinct_counterexample :
    generate_quick_vouchers (fun _ => true) "1day" 2 (fun _ => "AAAAAAAA") =
      Except.ok [⟨"1DAAAAAAAA", "1day", "1d"⟩, ⟨"1DAAAAAAAA", "1day", "1d"⟩] ∧
    ¬ (["1DAAAAAAAA", "1DAAAAAAAA"] : List String).Nodup := by
  refine ⟨?_, by decide⟩
  rfl

/-- C1 amended: when the router accepts every registration, requesting
`count = N` vouchers for a known preset returns exactly N records,
each carrying the preset's profile and validity; the codes in the
batch are pairwise distinct whenever the N underlying random draws are
pairwise distinct (the code enforces nothing beyond that). -/
theorem voucher_batch_amended (presetName : String) (p : VoucherPreset) (count : Nat)
    (draws : Nat → String) (accepts : String → Bool)
    (hp : VOUCHER_PRESETS.lookup presetName = some p)
    (hacc : ∀ c, accepts c = true) :
    ∃ vs, generate_quick_vouchers accepts presetName count draws = Except.ok vs ∧
      vs.length = count ∧
      (∀ v ∈ vs, v.profile = p.profile ∧ v.validity = p.validity) ∧
      ((∀ a b, a < count → b < count → draws a = draws b → a = b) →
        (vs.map Voucher.code).Nodup) := by
  have hreq : generate_vouchers accepts
      ⟨count, p.profile, upperTake2 presetName, p.validity, 8⟩ draws =
      Except.ok (vouchersFrom ⟨count, p.profile, upperTake2 presetName, p.validity, 8⟩
        draws 0 count) := by
    unfold generate_vouchers
    rw [genLoop_all_accepted accepts _ draws hacc count 0 []]
    rw [List.nil_append]
  refine ⟨vouchersFrom ⟨count, p.profile, upperTake2 presetName, p.validity, 8⟩
    draws 0 count, ?_, ?_, ?_, ?_⟩
  · unfold generate_quick_vouchers
    rw [hp]
    simp only [hreq]
  · exact vouchersFrom_length _ draws count 0
  · intro v hv
    rcases (vouchersFrom_mem _ draws count 0 v).mp hv with ⟨k, _, rfl⟩
    exact ⟨rfl, rfl⟩
  · intro hinj
    exact vouchersFrom_codes_nodup _ draws count 0
      (fun a b ha1 ha2 hb1 hb2 hab => hinj a b (by omega) (by omega) hab)

/-- C1 amended witness: three distinct draws yield a batch of three
records for the 1day preset. -/
theorem voucher_batch_amended_witness :
    ∃ vs, generate_quick_vouchers (fun _ => true) "1day" 3 (fun i => toString i) =
      Except.ok vs ∧ vs.length = 3 := by
  obtain ⟨vs, h1, h2, _, _⟩ := voucher_batch_amended "1day" ⟨"1day", "1d", "10M/10M"⟩ 3
    (fun i => toString i) (fun _ => true) rfl (fun _ => rfl)
  exact ⟨vs, h1, h2⟩

/-- C4: when the router accepts the first code of a two-voucher batch
and rejects the second, the loop raises with only the rejected code,
the record of the successfully registered first code is discarded, and
the HTTP client receives the same generic internal-error response as
for a batch whose very first registration failed: the partial outcome
is not distinct from total failure and the caller is not told which
codes succeeded. -/
theorem voucher_midbatch_failure_indistinct :
    generate_vouchers (fun c => c == "VA") ⟨2, "1day", "V", "1d", 1⟩
        (fun i => if i = 0 then "A" else "B") =
      Except.error (RouterError.addRejected "VB") ∧
    generate_vouchers_endpoint (fun c => c == "VA") ⟨2, "1day", "V", "1d", 1⟩
        (fun i => if i = 0 then "A" else "B") =
      Except.error HttpFailure.internalServerError ∧
    generate_vouchers_endpoint (fun _ => false) ⟨2, "1day", "V", "1d", 1⟩
        (fun i => if i = 0 then "A" else "B") =
      Except.error HttpFailure.internalServerError :=
  ⟨rfl, rfl, rfl⟩

/-- Helper: under a duplicate-free column of external ids, at most one
row matches a given external id. -/
theorem uisp_filter_length_le_one (l : List Customer) (u : String)
    (h : (l.map Customer.uisp_customer_id).Nodup) :
    (l.filter (fun c => c.uisp_customer_id == u)).length ≤ 1 := by
  induction l with
  | nil => simp
  | cons c rest ih =>
    simp only [List.map_cons, List.nodup_cons] at h
    by_cases hc : c.uisp_customer_id == u
    · have hcu : c.uisp_customer_id = u := by simpa using hc
      have hrest : rest.filter (fun x => x.uisp_customer_id == u) = [] := by
        rw [List.filter_eq_nil_iff]
        intro x hx hxu
        have hxeq : x.uisp_customer_id = u := by simpa using hxu
        exact h.1 (List.mem_map.mpr ⟨x, hx, by rw [hxeq, hcu]⟩)
      simp [List.filter_cons, hc, hrest]
    · simp only [List.filter_cons, hc, if_false, Bool.false_eq_true]
      exact ih h.2

/-- Helper: the login result when a matching row exists. -/
theorem login_eq_of_found (db : Db) (a : UispAuthResult) (key : String) (now : Nat)
    (c : Customer)
    (hfind : db.rows.find? (fun r => r.uisp_customer_id == a.customerId) = some c) :
    login db a key now =
      (db, c.id, create_access_token ⟨c.id, a.customerId, a.email, some a.token⟩ key now) := by
  unfold login
  rw [hfind]

/-- Helper: the login result when no matching row exists. -/
theorem login_eq_of_not_found (db : Db) (a : UispAuthResult) (key : String) (now : Nat)
    (hfind : db.rows.find? (fun r => r.uisp_customer_id == a.customerId) = none) :
    login db a key now =
      (⟨db.rows ++ [⟨db.nextId, a.customerId, a.email,
          (a.firstName ++ " " ++ a.lastName).trim, a.phone⟩], db.nextId + 1⟩,
        db.nextId,
        create_access_token ⟨db.nextId, a.customerId, a.email, some a.token⟩ key now) := by
  unfold login
  rw [hfind]

/-- C7: after a login for an external customer id against a database
whose external-id column is duplicate-free, (a) the resulting database
has a row for that id whose primary key is the id the handler used,
(b) the returned token verifies to a payload whose subscriber id is
exactly that primary key, (c) a second login with the same external id
leaves the rows untouched, creating no duplicate, and (d) the
resulting database holds exactly one row for that external id. -/
theorem login_identity_roundtrip (db : Db) (a a2 : UispAuthResult) (key : String)
    (now now2 nowv : Nat)
    (hN : (db.rows.map Customer.uisp_customer_id).Nodup)
    (hsame : a2.customerId = a.customerId)
    (hclock : nowv < now + JWT_EXPIRATION_HOURS * 3600) :
    (∃ c, (login db a key now).1.rows.find?
        (fun r => r.uisp_customer_id == a.customerId) = some c ∧
      c.id = (login db a key now).2.1) ∧
    verify_token (login db a key now).2.2 key nowv =
      AuthOutcome.ok ⟨(login db a key now).2.1, a.customerId, a.email,
        now + JWT_EXPIRATION_HOURS * 3600⟩ ∧
    (login (login db a key now).1 a2 key now2).1.rows = (login db a key now).1.rows ∧
    ((login db a key now).1.rows.filter
      (fun r => r.uisp_customer_id == a.customerId)).length = 1 := by
  cases hfind : db.rows.find? (fun r => r.uisp_customer_id == a.customerId) with
  | some c =>
    have hlogin := login_eq_of_found db a key now c hfind
    rw [hlogin]
    refine ⟨⟨c, hfind, rfl⟩, ?_, ?_, ?_⟩
    · exact verify_create_access_token _ key now nowv hclock
    · show (login db a2 key now2).1.rows = db.rows
      rw [login_eq_of_found db a2 key now2 c (by rw [hsame]; exact hfind)]
    · show (db.rows.filter (fun r => r.uisp_customer_id == a.customerId)).length = 1
      have hle := uisp_filter_length_le_one db.rows a.customerId hN
      have hpred := List.find?_some hfind
      have hmem : c ∈ db.rows.filter (fun r => r.uisp_customer_id == a.customerId) :=
        List.mem_filter.mpr ⟨List.mem_of_find?_eq_some hfind, hpred⟩
      have hpos := List.length_pos_of_mem hmem
      omega
  | none =>
    have hlogin := login_eq_of_not_found db a key now hfind
    have hfind2 : (db.rows ++ [(⟨db.nextId, a.customerId, a.email,
        (a.firstName ++ " " ++ a.lastName).trim, a.phone⟩ : Customer)]).find?
        (fun r => r.uisp_customer_id == a.customerId) =
        some ⟨db.nextId, a.customerId, a.email,
          (a.firstName ++ " " ++ a.lastName).trim, a.phone⟩ := by
      rw [List.find?_append, hfind]
      simp [List.find?]
    rw [hlogin]
    refine ⟨⟨_, hfind2, rfl⟩, ?_, ?_, ?_⟩
    · exact verify_create_access_token _ key now nowv hclock
    · show (login ⟨db.rows ++ [⟨db.nextId, a.customerId, a.email,
          (a.firstName ++ " " ++ a.lastName).trim, a.phone⟩], db.nextId + 1⟩
          a2 key now2).1.rows =
        db.rows ++ [⟨db.nextId, a.customerId, a.email,
          (a.firstName ++ " " ++ a.lastName).trim, a.phone⟩]
      rw [login_eq_of_found _ a2 key now2 _ (by rw [hsame]; exact hfind2)]
    · show ((db.rows ++ [(⟨db.nextId, a.customerId, a.email,
          (a.firstName ++ " " ++ a.lastName).trim, a.phone⟩ : Customer)]).filter
          (fun r => r.uisp_customer_id == a.customerId)).length = 1
      have hnil : db.rows.filter (fun r => r.uisp_customer_id == a.customerId) = [] := by
        rw [List.filter_eq_nil_iff]
        intro x hx hxu
        exact List.find?_eq_none.mp hfind x hx hxu
      simp [List.filter_append, hnil, List.filter_cons]

/-- C7 witness: two consecutive logins of external customer 77 against
an empty database leave exactly one row for that id, and the second
login adds nothing. -/
theorem login_identity_roundtrip_witness :
    (login (login ⟨[], 1⟩ ⟨"TOK", "77", "u@x", "Ada", "L", "555"⟩ "k" 0).1
      ⟨"TOK", "77", "u@x", "Ada", "L", "555"⟩ "k" 5).1.rows =
      (login ⟨[], 1⟩ ⟨"TOK", "77", "u@x", "Ada", "L", "555"⟩ "k" 0).1.rows ∧
    ((login ⟨[], 1⟩ ⟨"TOK", "77", "u@x", "Ada", "L", "555"⟩ "k" 0).1.rows.filter
      (fun r => r.uisp_customer_id == "77")).length = 1 := by
  have h := login_identity_roundtrip ⟨[], 1⟩ ⟨"TOK", "77", "u@x", "Ada", "L", "555"⟩
    ⟨"TOK", "77", "u@x", "Ada", "L", "555"⟩ "k" 0 5 100 (by simp) rfl (by decide)
  exact ⟨h.2.2.1, h.2.2.2⟩

/-- Helper: looking a key up after a dict assignment. -/
theorem dictGet_dictInsert (m : List (String × String)) (k v k2 : String) :
    dictGet (dictInsert m k v) k2 = if k = k2 then some v else dictGet m k2 := by
  induction m with
  | nil => by_cases h : k = k2 <;> simp [dictInsert, dictGet, h]
  | cons e rest ih =>
    obtain ⟨k0, v0⟩ := e
    by_cases h0 : k0 = k
    · subst h0
      by_cases h2 : k0 = k2 <;> simp [dictInsert, dictGet, h2]
    · by_cases h2 : k0 = k2
      · have hk : ¬k = k2 := fun he => h0 (h2.trans he.symm)
        have hk2 : ¬k2 = k := fun he => hk he.symm
        simp [dictInsert, dictGet, h0, h2, hk, hk2]
      · simp [dictInsert, dictGet, h0, h2, ih]

/-- Helper: an entry present after a dict assignment is the assigned
pair or was already present. -/
theorem mem_dictInsert {m : List (String × String)} {k v : String}
    {e : String × String} (h : e ∈ dictInsert m k v) : e = (k, v) ∨ e ∈ m := by
  induction m with
  | nil => simpa [dictInsert] using h
  | cons e0 rest ih =>
    obtain ⟨k0, v0⟩ := e0
    by_cases h0 : k0 = k
    · rw [dictInsert, if_pos h0] at h
      rcases List.mem_cons.mp h with h | h
      · exact Or.inl (by rw [h, h0])
      · exact Or.inr (List.mem_cons_of_mem _ h)
    · rw [dictInsert, if_neg h0] at h
      rcases List.mem_cons.mp h with h | h
      · exact Or.inr (by rw [h]; exact List.mem_cons_self _ _)
      · rcases ih h with h | h
        · exact Or.inl h
        · exact Or.inr (List.mem_cons_of_mem _ h)

/-- Helper: a key present after a dict assignment is the assigned key
or was already a key. -/
theorem mem_keys_dictInsert {m : List (String × String)} {k v k2 : String}
    (h : k2 ∈ (dictInsert m k v).map Prod.fst) :
    k2 ∈ m.map Prod.fst ∨ k2 = k := by
  induction m with
  | nil => simpa [dictInsert] using h
  | cons e0 rest ih =>
    obtain ⟨k0, v0⟩ := e0
    by_cases h0 : k0 = k
    · rw [dictInsert, if_pos h0] at h
      exact Or.inl (by simpa using h)
    · rw [dictInsert, if_neg h0] at h
      simp only [List.map_cons, List.mem_cons] at h
      rcases h with h | h
      · exact Or.inl (by simp [h])
      · rcases ih h with h | h
        · exact Or.inl (by simp [h])
        · exact Or.inr h

/-- Helper: dict assignment preserves duplicate-freedom of the keys. -/
theorem nodup_keys_dictInsert (m : List (String × String)) (k v : String)
    (h : (m.map Prod.fst).Nodup) :
    ((dictInsert m k v).map Prod.fst).Nodup := by
  induction m with
  | nil => simp [dictInsert]
  | cons e0 rest ih =>
    obtain ⟨k0, v0⟩ := e0
    simp only [List.map_cons, List.nodup_cons] at h
    by_cases h0 : k0 = k
    · rw [dictInsert, if_pos h0]
      simp only [List.map_cons, List.nodup_cons]
      exact ⟨h.1, h.2⟩
    · rw [dictInsert, if_neg h0]
      simp only [List.map_cons, List.nodup_cons]
      refine ⟨fun hmem => ?_, ih h.2⟩
      rcases mem_keys_dictInsert hmem with hm | hk
      · exact h.1 hm
      · exact h0 hk

/-- Helper: lookup in the parameter-read fold equals the last
successful truthy read, falling back to the initial dict. -/
theorem gdp_foldl_lookup (fetch : String → FetchResult) (seg : String) :
    ∀ (ps : List String) (m : List (String × String)),
      dictGet (ps.foldl (gdpStep fetch) m) seg =
        (match lastSuccessfulRead fetch seg ps with
          | some v => some v
          | none => dictGet m seg) := by
  intro ps
  induction ps with
  | nil => intro m; rfl
  | cons p rest ih =>
    intro m
    rw [List.foldl_cons, ih]
    cases hrest : lastSuccessfulRead fetch seg rest with
    | some v => simp [lastSuccessfulRead, hrest]
    | none =>
      simp only [lastSuccessfulRead, hrest]
      cases hf : fetch p with
      | okData v =>
        simp only [gdpStep, hf, dictGet_dictInsert]
        by_cases hs : lastSegment p = seg <;> simp [hs]
      | exn => simp [gdpStep, hf]
      | okFalsy => simp [gdpStep, hf]

/-- Helper: provenance of entries of the parameter-read fold. -/
theorem gdp_foldl_mem (fetch : String → FetchResult) :
    ∀ (ps : List String) (m : List (String × String)) (e : String × String),
      e ∈ ps.foldl (gdpStep fetch) m →
      e ∈ m ∨ ∃ p ∈ ps, e.1 = lastSegment p ∧ fetch p = FetchResult.okData e.2 := by
  intro ps
  induction ps with
  | nil => intro m e h; exact Or.inl h
  | cons p rest ih =>
    intro m e h
    rw [List.foldl_cons] at h
    rcases ih _ e h with h2 | ⟨q, hq, h3⟩
    · cases hf : fetch p with
      | okData v =>
        rw [gdpStep, hf] at h2
        rcases mem_dictInsert h2 with he | he
        · refine Or.inr ⟨p, List.mem_cons_self _ _, ?_, ?_⟩
          · rw [he]
          · rw [he, hf]
        · exact Or.inl he
      | exn =>
        rw [gdpStep, hf] at h2
        exact Or.inl h2
      | okFalsy =>
        rw [gdpStep, hf] at h2
        exact Or.inl h2
    · exact Or.inr ⟨q, List.mem_cons_of_mem _ hq, h3⟩

/-- Helper: the parameter-read fold keeps its keys duplicate-free. -/
theorem gdp_foldl_nodup (fetch : String → FetchResult) :
    ∀ (ps : List String) (m : List (String × String)),
      (m.map Prod.fst).Nodup → ((ps.foldl (gdpStep fetch) m).map Prod.fst).Nodup := by
  intro ps
  induction ps with
  | nil => intro m h; exact h
  | cons p rest ih =>
    intro m h
    rw [List.foldl_cons]
    refine ih _ ?_
    cases hf : fetch p with
    | okData v =>
      rw [gdpStep, hf]
      exact nodup_keys_dictInsert m _ v h
    | exn => rw [gdpStep, hf]; exact h
    | okFalsy => rw [gdpStep, hf]; exact h

/-- C10: `get_device_parameters` returns a map whose every entry is
keyed by the last dotted segment of some requested path whose read
succeeded with truthy data; the keys are duplicate-free, so a segment
shared by several distinct requested paths has a single entry; the
value held for a segment is the data of the last successful read among
the paths ending in that segment (the later read overwrites the
earlier); consequently the map can have strictly fewer entries than
there were successful reads, as the final concrete conjunct shows. -/
theorem tr069_parameter_map_collapses (fetch : String → FetchResult) (ps : List String) :
    (∀ e ∈ get_device_parameters fetch ps, ∃ p ∈ ps,
        e.1 = lastSegment p ∧ fetch p = FetchResult.okData e.2) ∧
    ((get_device_parameters fetch ps).map Prod.fst).Nodup ∧
    (∀ seg, dictGet (get_device_parameters fetch ps) seg =
      lastSuccessfulRead fetch seg ps) ∧
    (countOkReads (fun _ => FetchResult.okData "v") ["a.x", "b.x"] = 2 ∧
      (get_device_parameters (fun _ => FetchResult.okData "v") ["a.x", "b.x"]).length = 1) := by
  refine ⟨?_, ?_, ?_, rfl, rfl⟩
  · intro e he
    rcases gdp_foldl_mem fetch ps [] e he with h | h
    · simp at h
    · exact h
  · exact gdp_foldl_nodup fetch ps [] (by simp)
  · intro seg
    have h := gdp_foldl_lookup fetch seg ps []
    unfold get_device_parameters
    rw [h]
    cases lastSuccessfulRead fetch seg ps <;> rfl

/-- C10 witness: two distinct paths sharing the final segment collapse
to one entry holding the later read's data. -/
theorem tr069_parameter_map_collapses_witness :
    dictGet (get_device_parameters (fun p => FetchResult.okData (p ++ "!"))
      ["a.x", "b.x"]) "x" = some "b.x!" := by
  have h := (tr069_parameter_map_collapses (fun p => FetchResult.okData (p ++ "!"))
    ["a.x", "b.x"]).2.2.1 "x"
  rw [h]
  rfl

/-- C5: whenever the gateway address is the satellite terminal's fixed
address 192.168.100.1 and its management port 9200 is open,
`detect_device` classifies the device as the satellite (starlink)
family, regardless of which router ports, registry entries, or HTTP
fingerprints also match: the first check in the fixed priority order
wins. -/
theorem detect_device_starlink_priority (net : Network)
    (h9200 : net.portOpen "192.168.100.1" 9200 = true) :
    detect_device net "192.168.100.1" =
      { device_type := "starlink", manufacturer := some "SpaceX"
        model := some "Starlink Dish", device_id := none
        ip_address := some "192.168.100.1"
        capabilities := ["wifi_config", "status", "reboot", "stow"] } := by
  unfold detect_device detect_starlink
  simp [h9200]

/-- C5 witness: a network where every port is open, the registry knows
a device at this address and the HTTP fingerprint matches TP-Link
still classifies 192.168.100.1 as starlink. -/
theorem detect_device_starlink_priority_witness :
    detect_device
      ⟨fun _ _ => true,
       Except.ok (200, [⟨some "dev1", some "Acme", some "CPE"⟩]),
       Except.ok ⟨"tp-link admin page", "tp-link"⟩⟩ "192.168.100.1" =
      { device_type := "starlink", manufacturer := some "SpaceX"
        model := some "Starlink Dish", device_id := none
        ip_address := some "192.168.100.1"
        capabilities := ["wifi_config", "status", "reboot", "stow"] } :=
  detect_device_starlink_priority _ rfl

/-- C6: when each of the four detection checks finds no match (a
raised error inside a check is swallowed and becomes a no-match, as
the last two conjuncts show for the two checks that perform outbound
HTTP calls), the aggregate `detect_device` does not fail: it returns
the `unknown` classification with an empty capability list. -/
theorem detect_device_unknown_on_no_match (net : Network) (ip : String)
    (h1 : detect_starlink net ip = none)
    (h2 : detect_mikrotik net ip = none)
    (h3 : detect_tr069_device net ip = none)
    (h4 : detect_by_http_fingerprint net ip = none) :
    detect_device net ip =
      { device_type := "unknown", manufacturer := none, model := none
        device_id := none, ip_address := some ip, capabilities := [] } ∧
    (detect_device net ip).capabilities = [] ∧
    (∀ n2 q, n2.acs = Except.error () → detect_tr069_device n2 q = none) ∧
    (∀ n2 q, n2.http = Except.error () → detect_by_http_fingerprint n2 q = none) := by
  have hmain : detect_device net ip =
      { device_type := "unknown", manufacturer := none, model := none
        device_id := none, ip_address := some ip, capabilities := [] } := by
    unfold detect_device
    rw [h1, h2, h3, h4]
  refine ⟨hmain, by rw [hmain], ?_, ?_⟩
  · intro n2 q h
    unfold detect_tr069_device
    rw [h]
  · intro n2 q h
    unfold detect_by_http_fingerprint
    rw [h]

/-- C6 witness: with no reachable port, and both outbound checks
raising network errors, the probe of 10.0.0.9 returns unknown with no
capabilities. -/
theorem detect_device_unknown_on_no_match_witness :
    detect_device ⟨fun _ _ => false, Except.error (), Except.error ()⟩ "10.0.0.9" =
      { device_type := "unknown", manufacturer := none, model := none
        device_id := none, ip_address := some "10.0.0.9", capabilities := [] } :=
  (detect_device_unknown_on_no_match
    ⟨fun _ _ => false, Except.error (), Except.error ()⟩ "10.0.0.9"
    rfl rfl rfl rfl).1

/-- C8: probing the satellite terminal's address with its management
port closed and at least one of the router's API (8728) or alternate
management (8291) ports open classifies the device as the router
(mikrotik) family, with the base capability set extended by the
hotspot capabilities exactly when the web port 80 is also open. -/
theorem detect_device_mikrotik_fallback (net : Network)
    (h9200 : net.portOpen "192.168.100.1" 9200 = false)
    (hrouter : net.portOpen "192.168.100.1" 8728 = true ∨
      net.portOpen "192.168.100.1" 8291 = true) :
    detect_device net "192.168.100.1" =
      { device_type := "mikrotik", manufacturer := some "MikroTik"
        model := none, device_id := none
        ip_address := some "192.168.100.1"
        capabilities :=
          if net.portOpen "192.168.100.1" 80 then
            ["wifi_config", "status", "reboot",
             "hotspot_users", "hotspot_vouchers", "hotspot_profiles"]
          else ["wifi_config", "status", "reboot"] } := by
  have hs : detect_starlink net "192.168.100.1" = none := by
    unfold detect_starlink
    simp [h9200]
  have hcond : (net.portOpen "192.168.100.1" 8728 ||
      net.portOpen "192.168.100.1" 8291) = true := by
    rcases hrouter with h | h <;> simp [h]
  unfold detect_device
  rw [hs]
  unfold detect_mikrotik
  simp only [hcond, if_true]
  cases h80 : net.portOpen "192.168.100.1" 80 <;> simp [h80]

/-- C8 witness: router API port and web port open, satellite port
closed: the result is the mikrotik family with the full hotspot
capability set. -/
theorem detect_device_mikrotik_fallback_witness :
    detect_device
      ⟨fun _ p => p == 8728 || p == 80, Except.error (), Except.error ()⟩
      "192.168.100.1" =
      { device_type := "mikrotik", manufacturer := some "MikroTik"
        model := none, device_id := none
        ip_address := some "192.168.100.1"
        capabilities := ["wifi_config", "status", "reboot",
          "hotspot_users", "hotspot_vouchers", "hotspot_profiles"] } := by
  have h := detect_device_mikrotik_fallback
    ⟨fun _ p => p == 8728 || p == 80, Except.error (), Except.error ()⟩
    rfl (Or.inl rfl)
  simpa using h

end IspPortal
